import Mathlib

/-!
# EleksTubeHAX backlight engine

A shallow embedding of `class Backlights` from `EleksTubeHAX/Backlights.h`.

* Machine integers are natural numbers; every store into a `uint8_t` or
  `uint16_t` location is written with an explicit reduction modulo `2^8` or
  `2^16`.
* The engine holds a pointer `config` to an externally owned record.  The
  pointer is modelled as `Option`: `none` is `NULL`.  A member function that
  dereferences `config` returns `Option`; `none` is the NULL dereference.
* The base class `Adafruit_NeoPixel` (the pixel buffer) is not touched by any
  member function embedded here and is left out of the state.
-/

namespace StoredConfig.Config

/-- Modelled from the spec: the record `StoredConfig::Config::Backlights` that
the engine points to.  Its declaration lives in `StoredConfig.h`, which is not
in the source tree; the fields are those listed for the configuration binding
(`pattern : uint8`, `intensity : uint8`, `color_phase : uint16`,
`pulse_bpm : uint8`, `breath_per_min : uint8`). -/
structure Backlights where
  pattern : Nat
  intensity : Nat
  color_phase : Nat
  pulse_bpm : Nat
  breath_per_min : Nat
  deriving DecidableEq, Repr

end StoredConfig.Config

/-- Reduction of a value stored into a `uint8_t`. -/
def uint8 (n : Nat) : Nat := n % 2 ^ 8

/-- Reduction of a value stored into a `uint16_t`. -/
def uint16 (n : Nat) : Nat := n % 2 ^ 16

/-- The private data members of `class Backlights`, in declaration order:
`pattern_needs_init`, `off`, and the pointer `config`. -/
structure Backlights where
  pattern_needs_init : Bool
  off : Bool
  config : Option StoredConfig.Config.Backlights
  deriving DecidableEq, Repr

namespace Backlights

/-- The enumeration `enum patterns { dark, test, constant, rainbow, pulse,
breath, num_patterns }`; `num_patterns` is itself an enumerator. -/
inductive patterns where
  | dark
  | test
  | constant
  | rainbow
  | pulse
  | breath
  | num_patterns
  deriving DecidableEq, Repr

/-- The integer value of an enumerator (C++ numbers them from 0). -/
def patterns.toNat : patterns → Nat
  | .dark => 0
  | .test => 1
  | .constant => 2
  | .rainbow => 3
  | .pulse => 4
  | .breath => 5
  | .num_patterns => 6

/-- The conversion `patterns(v)` of an integer to the enumeration; `none` when
`v` is not the value of an enumerator. -/
def patterns.ofId (v : Nat) : Option patterns :=
  if v = 0 then some .dark
  else if v = 1 then some .test
  else if v = 2 then some .constant
  else if v = 3 then some .rainbow
  else if v = 4 then some .pulse
  else if v = 5 then some .breath
  else if v = 6 then some .num_patterns
  else none

/-- The constant `const uint16_t max_phase = 768;`. -/
def max_phase : Nat := 768

/-- The constant `const uint8_t max_intensity = 8;  // 0 to 7`. -/
def max_intensity : Nat := 8

/-- The constant `const uint32_t test_ms_delay = 250;`. -/
def test_ms_delay : Nat := 250

/-- The constructor `Backlights()`:
`config(NULL), pattern_needs_init(true), off(true)`. -/
def construct : Backlights :=
  { pattern_needs_init := true, off := true, config := none }

/-- The member `togglePower`: `off = !off; pattern_needs_init = true;`. -/
def togglePower (s : Backlights) : Backlights :=
  { s with off := !s.off, pattern_needs_init := true }

/-- The member `setPattern`:
`config->pattern = uint8_t(p); pattern_needs_init = true;`. -/
def setPattern (p : patterns) (s : Backlights) : Option Backlights :=
  match s.config with
  | none => none
  | some c =>
    some { s with config := some { c with pattern := uint8 p.toNat },
                  pattern_needs_init := true }

/-- The member `getPattern`: `return patterns(config->pattern);`. -/
def getPattern (s : Backlights) : Option patterns :=
  match s.config with
  | none => none
  | some c => patterns.ofId c.pattern

/-- The member `setPulseRate`: `config->pulse_bpm = bpm;` with `bpm` a
`uint8_t` parameter. -/
def setPulseRate (bpm : Nat) (s : Backlights) : Option Backlights :=
  match s.config with
  | none => none
  | some c => some { s with config := some { c with pulse_bpm := uint8 bpm } }

/-- The member `setBreathRate`: `config->breath_per_min = per_min;` with
`per_min` a `uint8_t` parameter. -/
def setBreathRate (per_min : Nat) (s : Backlights) : Option Backlights :=
  match s.config with
  | none => none
  | some c =>
    some { s with config := some { c with breath_per_min := uint8 per_min } }

/-- The member `setColorPhase`:
`config->color_phase = phase % max_phase; pattern_needs_init = true;` with
`phase` a `uint16_t` parameter. -/
def setColorPhase (phase : Nat) (s : Backlights) : Option Backlights :=
  match s.config with
  | none => none
  | some c =>
    some { s with config := some { c with color_phase := uint16 (uint16 phase % max_phase) },
                  pattern_needs_init := true }

/-- The member `getColorPhase`: `return config->color_phase;`. -/
def getColorPhase (s : Backlights) : Option Nat :=
  match s.config with
  | none => none
  | some c => some c.color_phase

/-- The member `getIntensity`: `return config->intensity;`. -/
def getIntensity (s : Backlights) : Option Nat :=
  match s.config with
  | none => none
  | some c => some c.intensity

/-- The member `getColor`: `return phaseToColor(config->color_phase);`.
The private helper `phaseToColor` is only declared in the header; it is taken
as a parameter, a function from a phase to a packed colour. -/
def getColor (phaseToColor : Nat → Nat) (s : Backlights) : Option Nat :=
  match s.config with
  | none => none
  | some c => some (phaseToColor c.color_phase)

/-- The static member `const static String patterns_str[num_patterns];`.  Only
the declaration is in the header: the entries are a parameter, the number of
entries is fixed by the declared array type. -/
abbrev PatternTable : Type :=
  { l : List String // l.length = patterns.num_patterns.toNat }

/-- The member `getPatternStr`: `return patterns_str[config->pattern];`.
An index outside the array is an out-of-bounds read, modelled as `none`. -/
def getPatternStr (patterns_str : PatternTable) (s : Backlights) : Option String :=
  match s.config with
  | none => none
  | some c => patterns_str.val[c.pattern]?

/-- Modelled from the spec: the member `setNextPattern`, declared in the header
as `void setNextPattern(int8_t i=1);` and defined outside the source tree.
In the spec's words it "advances the pattern id by `step` modulo
`num_patterns`, wrapping both directions; marks `needs_init`". -/
def setNextPattern (i : Int) (s : Backlights) : Option Backlights :=
  match s.config with
  | none => none
  | some c =>
    some { s with
      config := some { c with
        pattern := uint8 (((c.pattern : Int) + i) % (patterns.num_patterns.toNat : Int)).toNat },
      pattern_needs_init := true }

/-- The member `setPrevPattern`: `setNextPattern(-1);`. -/
def setPrevPattern (s : Backlights) : Option Backlights :=
  setNextPattern (-1) s

/-- Modelled from the spec: the top of the intensity range, which the spec
calls `max_intensity (7)`; the header's constant of that name is 8. -/
def top_intensity : Nat := 7

/-- Modelled from the spec: the member `adjustIntensity`, declared in the
header as `void adjustIntensity(int16_t adj);` and defined outside the source
tree.  In the spec's words intensity "is clamped (not wrapped)" and
`adjustIntensity` "saturates at both ends": "driving it far below 0 or above
`max_intensity` (7) clamps to 0 or 7 respectively".  The spec names no other
effect, so only the stored intensity changes here. -/
def adjustIntensity (adj : Int) (s : Backlights) : Option Backlights :=
  match s.config with
  | none => none
  | some c =>
    let target : Int := (c.intensity : Int) + adj
    let level : Nat :=
      if target < 0 then 0
      else if (top_intensity : Int) < target then top_intensity
      else target.toNat
    some { s with config := some { c with intensity := level } }

/-- A sample configuration record: constant pattern, full intensity, phase 0. -/
def sampleConfig : StoredConfig.Config.Backlights :=
  { pattern := 2, intensity := 7, color_phase := 0, pulse_bpm := 72, breath_per_min := 10 }

/-- A sample engine state bound to `sampleConfig`, powered on, already
initialised. -/
def sampleState : Backlights :=
  { pattern_needs_init := false, off := false, config := some sampleConfig }

/-- A second sample state with the same colour phase as `sampleState` and
every other field different. -/
def otherState : Backlights :=
  { pattern_needs_init := true, off := true,
    config := some { pattern := 4, intensity := 3, color_phase := 0,
                     pulse_bpm := 60, breath_per_min := 20 } }

/-- A sample colour wheel (three 256-point arcs), used only to instantiate the
`phaseToColor` parameter at concrete inputs. -/
def sampleWheel (phase : Nat) : Nat :=
  if phase < 256 then (255 - phase) * 65536 + phase * 256
  else if phase < 512 then (511 - phase) * 256 + (phase - 256)
  else (767 - phase) + (phase - 512) * 65536

/-- A sample label table with six entries. -/
def sampleTable : PatternTable :=
  ⟨["Dark", "Test", "Constant", "Rainbow", "Pulse", "Breath"], rfl⟩

/-- A sample state whose stored pattern is `breath`, the last variant. -/
def breathState : Backlights :=
  { pattern_needs_init := false, off := false,
    config := some { sampleConfig with pattern := patterns.breath.toNat } }

/-- A sample state whose stored pattern is `dark`, the first variant. -/
def darkState : Backlights :=
  { pattern_needs_init := false, off := false,
    config := some { sampleConfig with pattern := patterns.dark.toNat } }

/-! ## Colour phase -/

/-- C1: for every 16-bit phase `p` and every engine state bound to a
configuration, `setColorPhase p` succeeds, `getColorPhase` then reads back
`p mod 768` (which is below 768), and `pattern_needs_init` is true. -/
theorem setColorPhase_stores_phase_mod_768 (p : Nat) (hp : p < 2 ^ 16)
    (s : Backlights) (c : StoredConfig.Config.Backlights) (hc : s.config = some c) :
    ∃ s', setColorPhase p s = some s' ∧ getColorPhase s' = some (p % 768) ∧
      p % 768 < 768 ∧ s'.pattern_needs_init = true := by
  have h768 : p % 768 < 768 := Nat.mod_lt _ (by norm_num)
  have h1 : uint16 p = p := Nat.mod_eq_of_lt hp
  have h2 : uint16 (p % 768) = p % 768 := Nat.mod_eq_of_lt (by omega)
  refine ⟨{ s with config := some { c with color_phase := p % 768 },
                    pattern_needs_init := true }, ?_, rfl, h768, rfl⟩
  simp only [setColorPhase, hc, max_phase, h1, h2]

/-- C1 at concrete inputs: phases 768 and 769 on the sample state are stored as
0 and 1. -/
theorem setColorPhase_stores_phase_mod_768_witness :
    (∃ s', setColorPhase 768 sampleState = some s' ∧ getColorPhase s' = some 0 ∧
      768 % 768 < 768 ∧ s'.pattern_needs_init = true) ∧
    (∃ s', setColorPhase 769 sampleState = some s' ∧ getColorPhase s' = some 1 ∧
      769 % 768 < 768 ∧ s'.pattern_needs_init = true) :=
  ⟨setColorPhase_stores_phase_mod_768 768 (by norm_num) sampleState sampleConfig rfl,
   setColorPhase_stores_phase_mod_768 769 (by norm_num) sampleState sampleConfig rfl⟩

/-! ## Power -/

/-- C2: for every engine state, two calls of `togglePower` restore the `off`
flag, `pattern_needs_init` is true after each call, and the configuration is
the same after each call. -/
theorem togglePower_twice (s : Backlights) :
    (togglePower (togglePower s)).off = s.off ∧
    (togglePower s).pattern_needs_init = true ∧
    (togglePower (togglePower s)).pattern_needs_init = true ∧
    (togglePower s).config = s.config ∧
    (togglePower (togglePower s)).config = s.config := by
  simp [togglePower]

/-- Parity of the `off` flag along repeated `togglePower` calls. -/
theorem togglePower_iterate_off (n : Nat) (s : Backlights) :
    (Nat.iterate togglePower n s).off = (if n % 2 = 0 then s.off else !s.off) := by
  induction n with
  | zero => simp
  | succ k ih =>
    rw [Function.iterate_succ_apply']
    simp only [togglePower, ih]
    rcases Nat.mod_two_eq_zero_or_one k with h | h
    · have h1 : (k + 1) % 2 = 1 := by omega
      simp [h, h1]
    · have h1 : (k + 1) % 2 = 0 := by omega
      simp [h, h1]

/-- C10: a freshly constructed engine is powered off, needs initialisation and
has no configuration bound; one `togglePower` powers it on and leaves
`pattern_needs_init` true; after `n` calls it is powered on exactly when `n` is
odd. -/
theorem construct_then_togglePower :
    construct.off = true ∧ construct.pattern_needs_init = true ∧
    construct.config = none ∧
    (togglePower construct).off = false ∧
    (togglePower construct).pattern_needs_init = true ∧
    ∀ n : Nat, ((Nat.iterate togglePower n construct).off = false ↔ Odd n) := by
  refine ⟨rfl, rfl, rfl, rfl, rfl, ?_⟩
  intro n
  rw [togglePower_iterate_off, Nat.odd_iff]
  rcases Nat.mod_two_eq_zero_or_one n with h | h <;> simp [h, construct]

/-! ## Pattern selection -/

/-- The enumerator read back from its own integer value. -/
theorem patterns_ofId_toNat (p : patterns) : patterns.ofId (uint8 p.toNat) = some p := by
  cases p <;> rfl

/-- C5: for every pattern `p` of the enumeration (the six variants dark, test,
constant, rainbow, pulse, breath among them) and every engine state bound to a
configuration, `setPattern p` succeeds, `getPattern` then returns `p`,
`pattern_needs_init` is true, and `off`, `intensity`, `color_phase`,
`pulse_bpm` and `breath_per_min` are unchanged. -/
theorem setPattern_then_getPattern (p : patterns) (s : Backlights)
    (c : StoredConfig.Config.Backlights) (hc : s.config = some c) :
    ∃ s' c', setPattern p s = some s' ∧ s'.config = some c' ∧
      getPattern s' = some p ∧ s'.pattern_needs_init = true ∧ s'.off = s.off ∧
      c'.intensity = c.intensity ∧ c'.color_phase = c.color_phase ∧
      c'.pulse_bpm = c.pulse_bpm ∧ c'.breath_per_min = c.breath_per_min := by
  refine ⟨{ s with config := some { c with pattern := uint8 p.toNat },
                    pattern_needs_init := true },
          { c with pattern := uint8 p.toNat }, ?_, rfl, ?_, rfl, rfl, rfl, rfl, rfl, rfl⟩
  · simp only [setPattern, hc]
  · simp only [getPattern]
    exact patterns_ofId_toNat p

/-- C5 at a concrete input: `setPattern breath` on the sample state. -/
theorem setPattern_then_getPattern_witness :
    sampleState.config = some sampleConfig ∧
    ∃ s' c', setPattern .breath sampleState = some s' ∧ s'.config = some c' ∧
      getPattern s' = some .breath ∧ s'.pattern_needs_init = true ∧
      s'.off = sampleState.off ∧
      c'.intensity = sampleConfig.intensity ∧ c'.color_phase = sampleConfig.color_phase ∧
      c'.pulse_bpm = sampleConfig.pulse_bpm ∧
      c'.breath_per_min = sampleConfig.breath_per_min :=
  ⟨rfl, setPattern_then_getPattern .breath sampleState sampleConfig rfl⟩

/-- C9: the label table has exactly `num_patterns = 6` entries, and for every
pattern `p` among the six variants dark..breath and every engine state bound to
a configuration, after `setPattern p` the stored pattern id is below
`num_patterns`, so `getPatternStr` reads inside the table (it returns the entry
at index `p`). -/
theorem setPattern_keeps_label_lookup_in_bounds (tbl : PatternTable) (p : patterns)
    (hp : p ≠ .num_patterns) (s : Backlights)
    (c : StoredConfig.Config.Backlights) (hc : s.config = some c) :
    tbl.val.length = 6 ∧ patterns.num_patterns.toNat = 6 ∧
    ∃ s' c', setPattern p s = some s' ∧ s'.config = some c' ∧
      c'.pattern < patterns.num_patterns.toNat ∧
      c'.pattern < tbl.val.length ∧
      ∃ label, getPatternStr tbl s' = some label ∧ tbl.val[p.toNat]? = some label := by
  have hlen : tbl.val.length = 6 := tbl.property
  have hid : uint8 p.toNat = p.toNat := by cases p <;> rfl
  have hlt : p.toNat < 6 := by
    cases p <;> first | exact absurd rfl hp | decide
  refine ⟨hlen, rfl,
          { s with config := some { c with pattern := uint8 p.toNat },
                   pattern_needs_init := true },
          { c with pattern := uint8 p.toNat }, ?_, rfl, ?_, ?_, ?_⟩
  · simp only [setPattern, hc]
  · show uint8 p.toNat < 6
    omega
  · show uint8 p.toNat < tbl.val.length
    omega
  · have hget : tbl.val[p.toNat]? = some (tbl.val[p.toNat]) :=
      List.getElem?_eq_getElem (by omega)
    refine ⟨tbl.val[p.toNat], ?_, hget⟩
    simp only [getPatternStr, hid]
    exact hget

/-- C9 at a concrete input: `setPattern pulse` on the sample state, with the
sample table. -/
theorem setPattern_keeps_label_lookup_in_bounds_witness :
    patterns.pulse ≠ patterns.num_patterns ∧ sampleState.config = some sampleConfig ∧
    sampleTable.val.length = 6 ∧ patterns.num_patterns.toNat = 6 ∧
    ∃ s' c', setPattern .pulse sampleState = some s' ∧ s'.config = some c' ∧
      c'.pattern < patterns.num_patterns.toNat ∧
      c'.pattern < sampleTable.val.length ∧
      ∃ label, getPatternStr sampleTable s' = some label ∧
        sampleTable.val[patterns.pulse.toNat]? = some label :=
  ⟨by decide, rfl,
   setPattern_keeps_label_lookup_in_bounds sampleTable .pulse (by decide)
     sampleState sampleConfig rfl⟩

/-- The sixth index is outside the table: after `setPattern num_patterns` the
lookup of `getPatternStr` is out of bounds, so the restriction to the six
variants in the lookup bound is needed. -/
theorem getPatternStr_after_setPattern_num_patterns (tbl : PatternTable) :
    (setPattern .num_patterns sampleState).bind (getPatternStr tbl) = none := by
  have hlen : tbl.val.length = 6 := tbl.property
  show tbl.val[6]? = none
  exact List.getElem?_eq_none (by omega)

/-! ## Rates -/

/-- On an engine with no configuration bound the rate setters dereference the
NULL `config` pointer. -/
theorem rate_setters_without_config (r : Nat) :
    setPulseRate r construct = none ∧ setBreathRate r construct = none :=
  ⟨rfl, rfl⟩

/-- C6: for every 8-bit rate `r` and every engine state (bound to the
configuration record `c` whose fields the claim speaks of), `setPulseRate r`
sets `pulse_bpm` to `r`, `setBreathRate r` sets `breath_per_min` to `r`, and
each leaves `pattern_needs_init`, `off` and every other configuration field
unchanged; a false `pattern_needs_init` stays false. -/
theorem setPulseRate_setBreathRate_frame (r : Nat) (hr : r < 2 ^ 8) (s : Backlights)
    (c : StoredConfig.Config.Backlights) (hc : s.config = some c) :
    (∃ s' c', setPulseRate r s = some s' ∧ s'.config = some c' ∧
      c'.pulse_bpm = r ∧
      s'.pattern_needs_init = s.pattern_needs_init ∧ s'.off = s.off ∧
      c'.pattern = c.pattern ∧ c'.intensity = c.intensity ∧
      c'.color_phase = c.color_phase ∧ c'.breath_per_min = c.breath_per_min ∧
      (s.pattern_needs_init = false → s'.pattern_needs_init = false)) ∧
    (∃ s' c', setBreathRate r s = some s' ∧ s'.config = some c' ∧
      c'.breath_per_min = r ∧
      s'.pattern_needs_init = s.pattern_needs_init ∧ s'.off = s.off ∧
      c'.pattern = c.pattern ∧ c'.intensity = c.intensity ∧
      c'.color_phase = c.color_phase ∧ c'.pulse_bpm = c.pulse_bpm ∧
      (s.pattern_needs_init = false → s'.pattern_needs_init = false)) := by
  have h8 : uint8 r = r := Nat.mod_eq_of_lt hr
  constructor
  · refine ⟨{ s with config := some { c with pulse_bpm := r } },
            { c with pulse_bpm := r }, ?_, rfl, rfl, rfl, rfl, rfl, rfl, rfl, rfl, ?_⟩
    · simp only [setPulseRate, hc, h8]
    · intro h
      exact h
  · refine ⟨{ s with config := some { c with breath_per_min := r } },
            { c with breath_per_min := r }, ?_, rfl, rfl, rfl, rfl, rfl, rfl, rfl, rfl, ?_⟩
    · simp only [setBreathRate, hc, h8]
    · intro h
      exact h

/-- C6 at a concrete input: rate 200 on the sample state, whose
`pattern_needs_init` is false. -/
theorem setPulseRate_setBreathRate_frame_witness :
    200 < 2 ^ 8 ∧ sampleState.config = some sampleConfig ∧
    sampleState.pattern_needs_init = false ∧
    (∃ s' c', setPulseRate 200 sampleState = some s' ∧ s'.config = some c' ∧
      c'.pulse_bpm = 200 ∧
      s'.pattern_needs_init = sampleState.pattern_needs_init ∧ s'.off = sampleState.off ∧
      c'.pattern = sampleConfig.pattern ∧ c'.intensity = sampleConfig.intensity ∧
      c'.color_phase = sampleConfig.color_phase ∧
      c'.breath_per_min = sampleConfig.breath_per_min ∧
      (sampleState.pattern_needs_init = false → s'.pattern_needs_init = false)) ∧
    (∃ s' c', setBreathRate 200 sampleState = some s' ∧ s'.config = some c' ∧
      c'.breath_per_min = 200 ∧
      s'.pattern_needs_init = sampleState.pattern_needs_init ∧ s'.off = sampleState.off ∧
      c'.pattern = sampleConfig.pattern ∧ c'.intensity = sampleConfig.intensity ∧
      c'.color_phase = sampleConfig.color_phase ∧
      c'.pulse_bpm = sampleConfig.pulse_bpm ∧
      (sampleState.pattern_needs_init = false → s'.pattern_needs_init = false)) :=
  ⟨by norm_num, rfl, rfl,
   setPulseRate_setBreathRate_frame 200 (by norm_num) sampleState sampleConfig rfl⟩

/-! ## Colour -/

/-- C7: `getColor` depends only on the stored `color_phase`: two engine states
whose configurations have the same `color_phase` return the same colour,
whatever their other fields and flags, and that colour is `phaseToColor` of the
stored phase. -/
theorem getColor_depends_only_on_color_phase (phaseToColor : Nat → Nat)
    (s₁ s₂ : Backlights) (c₁ c₂ : StoredConfig.Config.Backlights)
    (h₁ : s₁.config = some c₁) (h₂ : s₂.config = some c₂)
    (hphase : c₁.color_phase = c₂.color_phase) :
    getColor phaseToColor s₁ = getColor phaseToColor s₂ ∧
    getColor phaseToColor s₁ = some (phaseToColor c₁.color_phase) := by
  simp only [getColor, h₁, h₂, hphase, and_self]

/-- C7 at a concrete input: the two sample states differ in pattern, intensity,
rates and both flags, and agree on the colour. -/
theorem getColor_depends_only_on_color_phase_witness :
    sampleState.config = some sampleConfig ∧
    sampleState.pattern_needs_init ≠ otherState.pattern_needs_init ∧
    sampleState.off ≠ otherState.off ∧
    getColor sampleWheel sampleState = getColor sampleWheel otherState ∧
    getColor sampleWheel sampleState = some (sampleWheel sampleConfig.color_phase) :=
  ⟨rfl, by decide, by decide,
   getColor_depends_only_on_color_phase sampleWheel sampleState otherState
     sampleConfig _ rfl rfl rfl⟩

/-- C8: for every 16-bit phase `p` and every engine state bound to a
configuration, `setColorPhase p` followed by `getColor` returns a colour, the
same one as `setColorPhase (p mod 768)` followed by `getColor`, namely
`phaseToColor (p mod 768)`. -/
theorem setColorPhase_getColor_wraps (phaseToColor : Nat → Nat) (p : Nat)
    (hp : p < 2 ^ 16) (s : Backlights) (c : StoredConfig.Config.Backlights)
    (hc : s.config = some c) :
    (setColorPhase p s).bind (getColor phaseToColor) =
      (setColorPhase (p % 768) s).bind (getColor phaseToColor) ∧
    (setColorPhase p s).bind (getColor phaseToColor) = some (phaseToColor (p % 768)) := by
  have h768 : p % 768 < 768 := Nat.mod_lt _ (by norm_num)
  have h1 : uint16 p = p := Nat.mod_eq_of_lt hp
  have h2 : uint16 (p % 768) = p % 768 := Nat.mod_eq_of_lt (by omega)
  simp [setColorPhase, getColor, hc, max_phase, h1, h2]

/-- C8 at a concrete input: phase 768 gives the same colour as phase 0. -/
theorem setColorPhase_getColor_wraps_witness :
    768 < 2 ^ 16 ∧ sampleState.config = some sampleConfig ∧
    (setColorPhase 768 sampleState).bind (getColor sampleWheel) =
      (setColorPhase 0 sampleState).bind (getColor sampleWheel) ∧
    (setColorPhase 768 sampleState).bind (getColor sampleWheel) = some (sampleWheel 0) :=
  ⟨by norm_num, rfl,
   setColorPhase_getColor_wraps sampleWheel 768 (by norm_num) sampleState sampleConfig rfl⟩

/-! ## Pattern stepping -/

/-- C3: `num_patterns` is 6 with `dark = 0` and `breath = 5`; for every step and
every engine state bound to a configuration, `setNextPattern step` succeeds,
the new pattern id is below 6 and equals the old id plus `step` modulo 6 (the
non-negative remainder, for negative steps too), and `pattern_needs_init` is
true; `setPrevPattern` is `setNextPattern (-1)`; from `breath` one
`setNextPattern 1` gives `dark`, and from `dark` one `setPrevPattern` gives
`breath`. -/
theorem setNextPattern_advances_mod_num_patterns (step : Int) (s : Backlights)
    (c : StoredConfig.Config.Backlights) (hc : s.config = some c) :
    patterns.num_patterns.toNat = 6 ∧ patterns.dark.toNat = 0 ∧
    patterns.breath.toNat = 5 ∧
    (∃ s' c', setNextPattern step s = some s' ∧ s'.config = some c' ∧
      c'.pattern < 6 ∧ (c'.pattern : Int) = ((c.pattern : Int) + step) % 6 ∧
      s'.pattern_needs_init = true) ∧
    setPrevPattern s = setNextPattern (-1) s ∧
    (c.pattern = patterns.breath.toNat →
      (setNextPattern 1 s).bind getPattern = some patterns.dark) ∧
    (c.pattern = patterns.dark.toNat →
      (setPrevPattern s).bind getPattern = some patterns.breath) := by
  have hnn : 0 ≤ ((c.pattern : Int) + step) % 6 := Int.emod_nonneg _ (by norm_num)
  have hlt : ((c.pattern : Int) + step) % 6 < 6 := Int.emod_lt_of_pos _ (by norm_num)
  have hcast : (((((c.pattern : Int) + step) % 6).toNat : Nat) : Int)
      = ((c.pattern : Int) + step) % 6 := Int.toNat_of_nonneg hnn
  have hnat : (((c.pattern : Int) + step) % 6).toNat < 6 := by omega
  have h8 : uint8 (((c.pattern : Int) + step) % 6).toNat
      = (((c.pattern : Int) + step) % 6).toNat := Nat.mod_eq_of_lt (by omega)
  refine ⟨rfl, rfl, rfl, ?_, rfl, ?_, ?_⟩
  · refine ⟨{ s with
              config := some { c with pattern := (((c.pattern : Int) + step) % 6).toNat },
              pattern_needs_init := true },
            { c with pattern := (((c.pattern : Int) + step) % 6).toNat },
            ?_, rfl, hnat, hcast, rfl⟩
    simp only [setNextPattern, hc, patterns.toNat, Nat.cast_ofNat, h8]
  · intro hpat
    simp only [setNextPattern, hc, hpat, Option.some_bind, getPattern]
    decide
  · intro hpat
    simp only [setPrevPattern, setNextPattern, hc, hpat, Option.some_bind, getPattern]
    decide

/-- C3 at concrete inputs: one step forward from `breath` gives `dark`, one step
back from `dark` gives `breath`. -/
theorem setNextPattern_advances_mod_num_patterns_witness :
    breathState.config = some { sampleConfig with pattern := 5 } ∧
    (setNextPattern 1 breathState).bind getPattern = some patterns.dark ∧
    darkState.config = some { sampleConfig with pattern := 0 } ∧
    (setPrevPattern darkState).bind getPattern = some patterns.breath :=
  ⟨rfl,
   (setNextPattern_advances_mod_num_patterns 1 breathState _ rfl).2.2.2.2.2.1 rfl,
   rfl,
   (setNextPattern_advances_mod_num_patterns (-1) darkState _ rfl).2.2.2.2.2.2 rfl⟩

/-! ## Intensity -/

/-- C4, as stated, fails on its first part: the header's `max_intensity` is 8,
not 7. -/
theorem max_intensity_is_not_seven : max_intensity ≠ 7 := by
  decide

/-- C4, amended: `max_intensity` is 8, one more than the top level 7; for every
delta and every engine state bound to a configuration, `adjustIntensity delta`
succeeds and leaves the stored intensity equal to
`min 7 (max 0 (intensity + delta))`, so it is at most 7, it is 0 when the sum
is at or below 0 and 7 when the sum is at or above 7. -/
theorem adjustIntensity_clamps_to_zero_and_seven (delta : Int) (s : Backlights)
    (c : StoredConfig.Config.Backlights) (hc : s.config = some c) :
    max_intensity = 8 ∧ top_intensity = max_intensity - 1 ∧
    ∃ s' c', adjustIntensity delta s = some s' ∧ s'.config = some c' ∧
      (c'.intensity : Int) = min 7 (max 0 ((c.intensity : Int) + delta)) ∧
      c'.intensity ≤ 7 ∧
      ((c.intensity : Int) + delta ≤ 0 → c'.intensity = 0) ∧
      (7 ≤ (c.intensity : Int) + delta → c'.intensity = 7) := by
  refine ⟨rfl, rfl, ?_⟩
  by_cases hneg : (c.intensity : Int) + delta < 0
  · refine ⟨{ s with config := some { c with intensity := 0 } },
            { c with intensity := 0 }, ?_, rfl, ?_, ?_, ?_, ?_⟩
    · simp only [adjustIntensity, hc, hneg, if_true]
    · show ((0 : Nat) : Int) = _
      rw [max_eq_left (le_of_lt hneg), min_eq_right (by norm_num)]
      rfl
    · show (0 : Nat) ≤ 7
      omega
    · intro _
      rfl
    · intro h
      omega
  · by_cases hbig : (7 : Int) < (c.intensity : Int) + delta
    · refine ⟨{ s with config := some { c with intensity := 7 } },
              { c with intensity := 7 }, ?_, rfl, ?_, ?_, ?_, ?_⟩
      · simp only [adjustIntensity, hc, hneg, top_intensity, Nat.cast_ofNat, hbig,
          if_true, if_false]
      · show ((7 : Nat) : Int) = _
        rw [max_eq_right (by omega), min_eq_left (le_of_lt hbig)]
        rfl
      · show (7 : Nat) ≤ 7
        omega
      · intro h
        omega
      · intro _
        rfl
    · have hnn : 0 ≤ (c.intensity : Int) + delta := by omega
      have hle : (c.intensity : Int) + delta ≤ 7 := by omega
      have hcast : ((((c.intensity : Int) + delta).toNat : Nat) : Int)
          = (c.intensity : Int) + delta := Int.toNat_of_nonneg hnn
      refine ⟨{ s with config := some { c with intensity := ((c.intensity : Int) + delta).toNat } },
              { c with intensity := ((c.intensity : Int) + delta).toNat },
              ?_, rfl, ?_, ?_, ?_, ?_⟩
      · simp only [adjustIntensity, hc, hneg, top_intensity, Nat.cast_ofNat, hbig,
          if_false]
      · show ((((c.intensity : Int) + delta).toNat : Nat) : Int) = _
        rw [hcast, max_eq_right hnn, min_eq_right hle]
      · show ((c.intensity : Int) + delta).toNat ≤ 7
        omega
      · intro h
        show ((c.intensity : Int) + delta).toNat = 0
        omega
      · intro h
        show ((c.intensity : Int) + delta).toNat = 7
        omega

/-- C4 amended, at concrete inputs: from intensity 7, delta 30000 stays at 7 and
delta -30000 lands on 0. -/
theorem adjustIntensity_clamps_to_zero_and_seven_witness :
    sampleState.config = some sampleConfig ∧ sampleConfig.intensity = 7 ∧
    (adjustIntensity 30000 sampleState).bind getIntensity = some 7 ∧
    (adjustIntensity (-30000) sampleState).bind getIntensity = some 0 := by
  obtain ⟨-, -, s₁, c₁, e₁, g₁, -, -, -, hi⟩ :=
    adjustIntensity_clamps_to_zero_and_seven 30000 sampleState sampleConfig rfl
  obtain ⟨-, -, s₂, c₂, e₂, g₂, -, -, lo, -⟩ :=
    adjustIntensity_clamps_to_zero_and_seven (-30000) sampleState sampleConfig rfl
  refine ⟨rfl, rfl, ?_, ?_⟩
  · rw [e₁, Option.some_bind]
    simp only [getIntensity, g₁]
    rw [hi (by decide)]
  · rw [e₂, Option.some_bind]
    simp only [getIntensity, g₂]
    rw [lo (by decide)]

end Backlights
